import Mathlib

/-!
Shallow embedding of the fuzzy-finder prompt of InquirerPy
(src/InquirerPy/prompts/fuzzy/fuzzy.py): the selection state machine,
filter engine plumbing, multi-select accumulator and commit logic of
`InquirerPyFuzzyControl` and `FuzzyPrompt`.

Modelling conventions:
* Python choice dicts (keys "name", "value", "enabled", "index") become the
  `Choice` structure.  The opaque payload "value" is modelled as a `String`.
* In Python, `_filtered_choices` holds references to the very same dict
  objects as `choices`; mutating `choices[i]["enabled"]` is visible through
  the filtered list.  The embedding therefore stores the filtered view as a
  list of indices into `choices` (the dicts' "index" field, set at
  construction to the position in `choices`).
* `selected_choice_index` is a Python `int` that can transiently reach `-1`
  inside `_on_text_changed`, so it is an `Int`.
* Python `%` on ints with a positive right operand agrees with `Int.emod`;
  `x % 0` raises `ZeroDivisionError`, modelled as `Option.none`.
* Python list indexing `lst[i]` admits negative indices counting from the
  end and raises `IndexError` out of range; `pyGet` reproduces this.
* A raised-and-uncaught exception is `Option.none` at the outermost level.
-/

namespace InquirerPyFuzzy

/-- One choice dict as built by `InquirerPyFuzzyControl.__init__`:
keys `name`, `value`, `enabled` (initially `False`) and `index`
(the position in the original choices list). -/
structure Choice where
  name : String
  value : String
  enabled : Bool
  index : Nat
deriving DecidableEq, Repr, Inhabited

/-- The result payload handed to `event.app.exit(result=...)` and stored in
`status["result"]`: `None`, a single value/name, or a list of values/names. -/
inductive ResultVal where
  | rNone : ResultVal
  | rSingle : String → ResultVal
  | rList : List String → ResultVal
deriving DecidableEq, Repr

/-- Combined state of `FuzzyPrompt` and its `InquirerPyFuzzyControl`:
`choices` and `_filtered_choices`/`_filtered_indices` with the control's
`selected_choice_index` (inherited attribute holding the cursor), the
buffer text, the `_multiselect`/`_invalid` flags and the `status` dict
(`answered`, `result`). -/
structure FuzzyState where
  choices : List Choice
  filteredChoices : List Nat
  filteredIndices : List (List Nat)
  selectedChoiceIndex : Int
  currentText : String
  multiselect : Bool
  invalid : Bool
  answered : Bool
  statusResult : Option ResultVal
deriving DecidableEq, Repr

/-- Python list indexing: `l[i]` for `i ≥ 0` is the `i`-th element, for
`i < 0` it counts from the end; out of range raises `IndexError` (`none`). -/
def pyGet (l : List α) (i : Int) : Option α :=
  if 0 ≤ i then l[i.toNat]?
  else if 0 ≤ (l.length : Int) + i then l[((l.length : Int) + i).toNat]?
  else none

/-- Well-formedness established by `InquirerPyFuzzyControl.__init__`:
every filtered-view reference points into `choices`, and the dicts'
`index` field equals their position in `choices`
(`choice["index"] = index` in the constructor loop). -/
def FuzzyState.wf (st : FuzzyState) : Prop :=
  (∀ r ∈ st.filteredChoices, r < st.choices.length) ∧
  st.choices.map Choice.index = List.range st.choices.length

instance (st : FuzzyState) : Decidable st.wf := by
  unfold FuzzyState.wf; infer_instance

/-- `InquirerPyFuzzyControl.choice_count`: `len(self._filtered_choices)`. -/
def FuzzyState.choiceCount (st : FuzzyState) : Nat :=
  st.filteredChoices.length

/-- `InquirerPyFuzzyControl.selection`:
`self._filtered_choices[self.selected_choice_index]`, dereferencing the
stored index back to the shared dict; `none` is the raised `IndexError`. -/
def FuzzyState.selection (st : FuzzyState) : Option Choice :=
  (pyGet st.filteredChoices st.selectedChoiceIndex).bind fun r => st.choices[r]?

/-- `FuzzyPrompt.selected_choices`:
`filter(lambda choice: choice["enabled"], self.content_control.choices)`. -/
def FuzzyState.selectedChoices (st : FuzzyState) : List Choice :=
  st.choices.filter (fun c => c.enabled)

/-- `FuzzyPrompt.result_value`: in multiselect a list of the enabled
choices' values, otherwise `selection["value"]`; `none` is the raised
`IndexError` when the filtered view cannot be indexed. -/
def FuzzyState.resultValue (st : FuzzyState) : Option ResultVal :=
  if st.multiselect then
    some (ResultVal.rList (st.selectedChoices.map (fun c => c.value)))
  else
    st.selection.map fun c => ResultVal.rSingle c.value

/-- `FuzzyPrompt.result_name`: like `result_value` but with names. -/
def FuzzyState.resultName (st : FuzzyState) : Option ResultVal :=
  if st.multiselect then
    some (ResultVal.rList (st.selectedChoices.map (fun c => c.name)))
  else
    st.selection.map fun c => ResultVal.rSingle c.name

/-- The type of `fuzzy_match_py(current_text, choices)`: from the query and
the full dict list it returns `(indices, choices)`, the per-survivor match
positions and the surviving references (here: indices into `choices`). -/
def Matcher : Type :=
  String → List Choice → List (List Nat) × List Nat

/-- `InquirerPyFuzzyControl.filter_choices`: with empty buffer text,
`self._filtered_choices = self.choices` (the full list, original order;
note `_filtered_indices` is left untouched); otherwise both fields are
replaced by the result of `fuzzy_match_py`. -/
def filterChoices (m : Matcher) (st : FuzzyState) : FuzzyState :=
  if st.currentText = "" then
    { st with filteredChoices := List.range st.choices.length }
  else
    let r := m st.currentText st.choices
    { st with filteredIndices := r.1, filteredChoices := r.2 }

/-- `FuzzyPrompt._on_text_changed`: reset `_invalid`, refilter, clamp
`selected_choice_index` to `choice_count - 1` when it exceeds it, and
reset an index of `-1` back to `0`. -/
def onTextChanged (m : Matcher) (st : FuzzyState) : FuzzyState :=
  let st1 := if st.invalid then { st with invalid := false } else st
  let st2 := filterChoices m st1
  let st3 :=
    if (st2.choiceCount : Int) - 1 < st2.selectedChoiceIndex then
      { st2 with selectedChoiceIndex := (st2.choiceCount : Int) - 1 }
    else st2
  if st3.selectedChoiceIndex = -1 then
    { st3 with selectedChoiceIndex := 0 }
  else st3

/-- `FuzzyPrompt._handle_down`:
`(selected_choice_index + 1) % choice_count`.  When `choice_count = 0`
Python evaluates `(i + 1) % 0` and raises `ZeroDivisionError` (`none`). -/
def handleDown (st : FuzzyState) : Option FuzzyState :=
  if st.choiceCount = 0 then none
  else some { st with
    selectedChoiceIndex := (st.selectedChoiceIndex + 1) % (st.choiceCount : Int) }

/-- `FuzzyPrompt._handle_up`:
`(selected_choice_index - 1) % choice_count`; `ZeroDivisionError` at 0. -/
def handleUp (st : FuzzyState) : Option FuzzyState :=
  if st.choiceCount = 0 then none
  else some { st with
    selectedChoiceIndex := (st.selectedChoiceIndex - 1) % (st.choiceCount : Int) }

/-- `FuzzyPrompt._handle_tab`: read `selection["index"]` (an uncaught
`IndexError` on an empty view) and negate
`choices[current_selected_index]["enabled"]`. -/
def handleTab (st : FuzzyState) : Option FuzzyState :=
  match st.selection with
  | none => none
  | some c =>
    match st.choices[c.index]? with
    | none => none
    | some target =>
      some { st with
        choices := st.choices.set c.index { target with enabled := !target.enabled } }

/-- The `Keys.Tab` binding in `FuzzyPrompt.__init__`:
`self._handle_tab()` then `self._handle_down()`. -/
def tabBinding (st : FuzzyState) : Option FuzzyState :=
  (handleTab st).bind handleDown

/-- The `Keys.BackTab` binding in `FuzzyPrompt.__init__`:
`self._handle_tab()` then `self._handle_up()`. -/
def backTabBinding (st : FuzzyState) : Option FuzzyState :=
  (handleTab st).bind handleUp

/-- `FuzzyPrompt._toggle_all(value=None)`: for every choice (Separator
entries cannot occur here, the fuzzy constructor rejects them),
`choice["enabled"] = value if value else not choice["enabled"]` — note the
truthiness test: an explicit `False` behaves like `None`. -/
def toggleAll (st : FuzzyState) (value : Option Bool) : FuzzyState :=
  { st with choices := st.choices.map fun c =>
      { c with enabled := if value.getD false then true else !c.enabled } }

/-- Outcome of `_handle_enter` when no exception escapes: the new state and
the `event.app.exit(result=...)` payload (`none` when no exit happened,
i.e. the commit was aborted by validation). -/
structure EnterOutcome where
  state : FuzzyState
  exitResult : Option ResultVal
deriving DecidableEq, Repr

/-- `FuzzyPrompt._handle_enter`.  First `FakeDocument(self.result_value)` is
evaluated inside a `try` that catches only `ValidationError`: an
`IndexError` from `result_value` (single-select, empty filtered view)
escapes uncaught, giving `none` overall.  A failing validator sets
`_invalid` and returns without exiting.  Otherwise the second `try` block
runs: multiselect without enabled choices exits with the selection's value
in a list (the inner `IndexError` on an empty view is caught and yields
`[]`); multiselect with enabled choices exits with `result_value`;
single-select exits with `selection["value"]` (its `except IndexError`
branch is kept for faithfulness although `result_value` already indexed
the same list successfully). -/
def handleEnter (validator : ResultVal → Bool) (st : FuzzyState) :
    Option EnterOutcome :=
  match st.resultValue with
  | none => none
  | some rv =>
    if validator rv = false then
      some ⟨{ st with invalid := true }, none⟩
    else if st.multiselect then
      if st.selectedChoices.isEmpty then
        match st.selection with
        | some c =>
          some ⟨{ st with
                  answered := true
                  statusResult := some (ResultVal.rList [c.name]) },
                some (ResultVal.rList [c.value])⟩
        | none =>
          some ⟨{ st with
                  answered := true
                  statusResult := some (ResultVal.rList []) },
                some (ResultVal.rList [])⟩
      else
        some ⟨{ st with
                answered := true
                statusResult := some (ResultVal.rList
                  (st.selectedChoices.map (fun c => c.name))) },
              some (ResultVal.rList (st.selectedChoices.map (fun c => c.value)))⟩
    else
      match st.selection with
      | some c =>
        some ⟨{ st with
                answered := true
                statusResult := some (ResultVal.rSingle c.name) },
              some (ResultVal.rSingle c.value)⟩
      | none =>
        some ⟨{ st with
                answered := true
                statusResult := some ResultVal.rNone },
              some ResultVal.rNone⟩

/-- Modelled from the spec: `fuzzy_match_py` lives in
src/InquirerPy/prompts/fuzzy/fzy.py, which is not among the provided
source files.  Per spec §4.1 the matcher decides whether the haystack
contains the query's characters as an ordered, case-insensitive
subsequence and, on a match, yields the chosen index positions.  This
helper returns the greedy (left-most) embedding of `q` into `hay`,
offsetting positions by `i`. -/
def subseqIndices : (q : List Char) → (hay : List Char) → (i : Nat) →
    Option (List Nat)
  | [], _, _ => some []
  | _ :: _, [], _ => none
  | q :: qs, h :: hs, i =>
    if q.toLower = h.toLower then
      match subseqIndices qs hs (i + 1) with
      | some rest => some (i :: rest)
      | none => none
    else
      subseqIndices (q :: qs) hs (i + 1)

/-- Modelled from the spec: scoring constants of §4.1 are an open question
(§9), so a simple weighted-subsequence score with the required properties
is used: +1 when the match starts at haystack position 0 (boundary bonus)
and +1 for every consecutive pair of matched positions (run bonus). -/
def matchScore : List Nat → Nat
  | [] => 0
  | p :: ps => (if p = 0 then 1 else 0) + consecBonus (p :: ps)
where
  consecBonus : List Nat → Nat
    | a :: b :: rest => (if b = a + 1 then 1 else 0) + consecBonus (b :: rest)
    | _ => 0

/-- Modelled from the spec: stable insertion into a list sorted by
descending score, placing the new entry before the first entry whose score
is not larger (so earlier-inserted entries win ties). -/
def insertByScore (x : Nat × List Nat × Nat) :
    List (Nat × List Nat × Nat) → List (Nat × List Nat × Nat)
  | [] => [x]
  | y :: ys => if y.1 ≤ x.1 then x :: y :: ys else y :: insertByScore x ys

/-- Modelled from the spec: stable sort by descending score. -/
def sortByScoreDesc : List (Nat × List Nat × Nat) → List (Nat × List Nat × Nat)
  | [] => []
  | x :: xs => insertByScore x (sortByScoreDesc xs)

/-- Modelled from the spec: `fuzzy_match_py` (src/InquirerPy/prompts/fuzzy/
fzy.py, not among the provided sources).  Per §4.2: run the matcher on
every choice's display name, drop non-matches, sort survivors by
descending score breaking ties by original insertion order, and return the
per-survivor matched positions alongside the surviving references. -/
def fuzzyMatchSpec : Matcher := fun text choices =>
  let scored := choices.enum.filterMap fun p =>
    match subseqIndices text.toList p.2.name.toList 0 with
    | some pos => some (matchScore pos, pos, p.1)
    | none => none
  let sorted := sortByScoreDesc scored
  (sorted.map (fun p => p.2.1), sorted.map (fun p => p.2.2))

/-- A single-select session whose filtered view became empty (as after
query "xyz" over choices ["apple"]), cursor held at 0. -/
def stEmptyView : FuzzyState :=
  { choices := [⟨"apple", "apple", false, 0⟩]
    filteredChoices := []
    filteredIndices := []
    selectedChoiceIndex := 0
    currentText := "xyz"
    multiselect := false
    invalid := false
    answered := false
    statusResult := none }

/-- A two-choice session with enabled flags `[false, true]`. -/
def stMixedFlags : FuzzyState :=
  { choices := [⟨"a", "va", false, 0⟩, ⟨"b", "vb", true, 1⟩]
    filteredChoices := [0, 1]
    filteredIndices := []
    selectedChoiceIndex := 0
    currentText := ""
    multiselect := true
    invalid := false
    answered := false
    statusResult := none }

/-- A fresh session over the single choice "ab" whose buffer text has just
become "a" (the text-changed handler has not yet run). -/
def stQueryA : FuzzyState :=
  { choices := [⟨"ab", "ab", false, 0⟩]
    filteredChoices := [0]
    filteredIndices := []
    selectedChoiceIndex := 0
    currentText := "a"
    multiselect := false
    invalid := false
    answered := false
    statusResult := none }

/-- The session of `stQueryA` after the "a" filter ran and the buffer text
was then cleared back to "" (before the second text-changed event). -/
def stQueryCleared : FuzzyState :=
  { onTextChanged fuzzyMatchSpec stQueryA with currentText := "" }

/-- A matcher on which no candidate survives (used to instantiate theorems
that hold for every matcher). -/
def mEmpty : Matcher := fun _ _ => ([], [])

/-- A session typing "q" with the cursor at 2, about to be refiltered. -/
def stCursorTwo : FuzzyState :=
  { choices := [⟨"a", "va", false, 0⟩, ⟨"b", "vb", false, 1⟩,
                ⟨"c", "vc", false, 2⟩]
    filteredChoices := [0, 1, 2]
    filteredIndices := []
    selectedChoiceIndex := 2
    currentText := "q"
    multiselect := false
    invalid := false
    answered := false
    statusResult := none }

/-- A one-choice session with the flag initially disabled. -/
def stOneChoice : FuzzyState :=
  { choices := [⟨"a", "va", false, 0⟩]
    filteredChoices := [0]
    filteredIndices := []
    selectedChoiceIndex := 0
    currentText := ""
    multiselect := false
    invalid := false
    answered := false
    statusResult := none }

/-- The single choice of `stOneChoice`. -/
def cOne : Choice := ⟨"a", "va", false, 0⟩

/-- A multiselect session with nothing toggled, cursor on its only choice. -/
def stMultiNoToggle : FuzzyState :=
  { stOneChoice with multiselect := true }

/-- A multiselect session with choices 0 and 2 enabled and a filtered view
listing them in reversed order `[2, 0]`. -/
def stMultiToggled : FuzzyState :=
  { choices := [⟨"a", "va", true, 0⟩, ⟨"b", "vb", false, 1⟩,
                ⟨"c", "vc", true, 2⟩]
    filteredChoices := [2, 0]
    filteredIndices := [[], []]
    selectedChoiceIndex := 0
    currentText := ""
    multiselect := true
    invalid := false
    answered := false
    statusResult := none }

/-- A multiselect session whose filtered view `[1, 0]` is reversed, cursor
on its first entry (the choice stored at position 1). -/
def stTwoReversed : FuzzyState :=
  { choices := [⟨"a", "va", false, 0⟩, ⟨"b", "vb", false, 1⟩]
    filteredChoices := [1, 0]
    filteredIndices := [[], []]
    selectedChoiceIndex := 0
    currentText := ""
    multiselect := true
    invalid := false
    answered := false
    statusResult := none }

/-- The choice stored at position 1 of `stTwoReversed`. -/
def cB : Choice := ⟨"b", "vb", false, 1⟩

/-- C1: the spec calls `move_down` and `move_up` guarded no-ops on an empty
Filtered View; in `FuzzyPrompt._handle_down` / `_handle_up` the code
computes `(selected_choice_index ± 1) % choice_count` with no guard, and
with `choice_count = 0` Python raises `ZeroDivisionError` (modelled as
`none`): on the concrete empty-view state both handlers fail instead of
leaving the cursor unchanged. -/
theorem move_on_empty_view_raises :
    handleDown stEmptyView = none ∧ handleUp stEmptyView = none :=
  ⟨rfl, rfl⟩

/-- C2: the spec (and the docstring of `_handle_enter` itself) says a
single-select commit on an empty Filtered View returns `None`; in the code
`FakeDocument(self.result_value)` is evaluated inside a `try` that catches
only `ValidationError`, and `result_value` → `selection` raises
`IndexError` on the empty view, which escapes `_handle_enter` uncaught
(modelled as `none`) for every validator. -/
theorem single_select_enter_on_empty_view_raises (v : ResultVal → Bool) :
    handleEnter v stEmptyView = none :=
  rfl

/-- C3: the spec says `toggle_all(v)` sets every `enabled` flag to `v` for
both booleans; the code runs
`choice["enabled"] = value if value else not choice["enabled"]`, whose
truthiness test treats an explicit `False` like `None`: on flags
`[false, true]`, `toggle_all(False)` yields `[true, false]` (a flip), not
`[false, false]`. -/
theorem toggle_all_false_flips_instead_of_clearing :
    (toggleAll stMixedFlags (some false)).choices.map (fun c => c.enabled) =
      [true, false] :=
  rfl

/-- C4: the spec says an empty query yields the full candidate set with no
highlight indices; `filter_choices` on empty text restores
`_filtered_choices = self.choices` but never resets `_filtered_indices`,
so after filtering "a" over ["ab"] (match positions `[[0]]`) and then
clearing the query, the view is full again while the stale indices
`[[0]]` keep highlighting the first character. -/
theorem empty_query_keeps_stale_indices :
    (onTextChanged fuzzyMatchSpec stQueryCleared).currentText = "" ∧
    (onTextChanged fuzzyMatchSpec stQueryCleared).filteredChoices =
      List.range stQueryCleared.choices.length ∧
    (onTextChanged fuzzyMatchSpec stQueryCleared).filteredIndices = [[0]] :=
  ⟨rfl, by decide, by decide⟩

/-- Refiltering never touches the cursor field. -/
theorem filterChoices_selectedChoiceIndex (m : Matcher) (st : FuzzyState) :
    (filterChoices m st).selectedChoiceIndex = st.selectedChoiceIndex := by
  unfold filterChoices
  split <;> rfl

/-- Resetting the `_invalid` flag never touches the cursor field. -/
theorem invalidReset_selectedChoiceIndex (st : FuzzyState) :
    (if st.invalid then { st with invalid := false } else st).selectedChoiceIndex
      = st.selectedChoiceIndex := by
  split <;> rfl

/-- C5: after `_on_text_changed`, starting from any non-negative cursor,
the cursor equals `max 0 (min old (N - 1))` for the new filtered length
`N` — i.e. a cursor beyond `N - 1` is clamped to `N - 1` and the `-1`
arising when the view empties is reset to `0` — and therefore satisfies
`0 ≤ cursor < max 1 N`. -/
theorem text_changed_clamps_cursor (m : Matcher) (st : FuzzyState)
    (h : 0 ≤ st.selectedChoiceIndex) :
    (onTextChanged m st).selectedChoiceIndex =
      max 0 (min st.selectedChoiceIndex
        (((onTextChanged m st).choiceCount : Int) - 1)) ∧
    0 ≤ (onTextChanged m st).selectedChoiceIndex ∧
    (onTextChanged m st).selectedChoiceIndex <
      max 1 ((onTextChanged m st).choiceCount : Int) := by
  simp only [onTextChanged]
  set A := filterChoices m (if st.invalid then { st with invalid := false } else st)
    with hA
  have hAi : A.selectedChoiceIndex = st.selectedChoiceIndex := by
    rw [hA, filterChoices_selectedChoiceIndex, invalidReset_selectedChoiceIndex]
  rw [hAi]
  by_cases h1 : (A.choiceCount : Int) - 1 < st.selectedChoiceIndex
  · rw [if_pos h1]
    by_cases h2 : ({ A with selectedChoiceIndex := (A.choiceCount : Int) - 1 }
        : FuzzyState).selectedChoiceIndex = -1
    · rw [if_pos h2]
      simp only [FuzzyState.choiceCount] at h1 h2 ⊢
      omega
    · rw [if_neg h2]
      simp only [FuzzyState.choiceCount] at h1 h2 ⊢
      omega
  · rw [if_neg h1]
    have h2 : A.selectedChoiceIndex ≠ -1 := by omega
    rw [if_neg h2, hAi]
    simp only [FuzzyState.choiceCount] at h1 ⊢
    omega

/-- C6: `toggle_all(True)` sets every `enabled` flag to `true` and the
following `toggle_all(False)` (which flips each flag, see the truthiness
slip) negates them all, so every choice ends with `enabled = false`. -/
theorem toggle_all_true_then_false_clears (st : FuzzyState) (c : Choice)
    (hc : c ∈ (toggleAll (toggleAll st (some true)) (some false)).choices) :
    c.enabled = false := by
  simp only [toggleAll, List.map_map, List.mem_map, Function.comp] at hc
  obtain ⟨a, -, rfl⟩ := hc
  rfl

/-- C7: in multiselect mode, when no choice is enabled
(`selected_choices = []`), a commit with a passing validator on a state
whose filtered view dereferences at the cursor (`selection = some c`)
exits with exactly `[c.value]`, the value under the cursor. -/
theorem multiselect_enter_no_toggle_returns_cursor_value
    (v : ResultVal → Bool) (st : FuzzyState) (c : Choice)
    (hm : st.multiselect = true)
    (hsel : st.selectedChoices = [])
    (hv : v (ResultVal.rList []) = true)
    (hc : st.selection = some c) :
    handleEnter v st =
      some ⟨{ st with
              answered := true
              statusResult := some (ResultVal.rList [c.name]) },
            some (ResultVal.rList [c.value])⟩ := by
  unfold handleEnter
  unfold FuzzyState.resultValue
  rw [hm, if_pos rfl, hsel, hc]
  simp [hv]

/-- C8: in multiselect mode with at least one enabled choice and a passing
validator, a commit exits with the enabled choices' values taken by
filtering the original `choices` list — and under the construction
invariant `wf` that list of choices is strictly increasing in
`original_index`, i.e. the result is in original insertion order, not
filtered-view order. -/
theorem multiselect_enter_returns_enabled_values_in_original_order
    (v : ResultVal → Bool) (st : FuzzyState)
    (hwf : st.wf)
    (hm : st.multiselect = true)
    (hne : st.selectedChoices ≠ [])
    (hv : v (ResultVal.rList (st.selectedChoices.map (fun c => c.value))) = true) :
    handleEnter v st =
      some ⟨{ st with
              answered := true
              statusResult := some (ResultVal.rList
                (st.selectedChoices.map (fun c => c.name))) },
            some (ResultVal.rList (st.selectedChoices.map (fun c => c.value)))⟩ ∧
    (st.selectedChoices.map Choice.index).Pairwise (· < ·) := by
  constructor
  · unfold handleEnter
    unfold FuzzyState.resultValue
    rw [hm, if_pos rfl]
    have hne' : st.selectedChoices.isEmpty = false := by
      simpa [List.isEmpty_iff] using hne
    simp [hv, hne']
  · have h1 : List.Sublist (st.selectedChoices.map Choice.index)
        (st.choices.map Choice.index) :=
      (List.filter_sublist _).map _
    rw [hwf.2] at h1
    exact (List.pairwise_lt_range _).sublist h1

/-- C9: when the supplied validator rejects the would-be result, the commit
aborts: the only state change is `_invalid := true` (the record update
leaves the cursor, filtered view, enabled flags, answered status and
stored result untouched), and no exit result is produced. -/
theorem enter_validation_failure_only_sets_invalid
    (v : ResultVal → Bool) (st : FuzzyState) (rv : ResultVal)
    (hrv : st.resultValue = some rv) (hv : v rv = false) :
    handleEnter v st = some ⟨{ st with invalid := true }, none⟩ := by
  unfold handleEnter
  rw [hrv]
  simp [hv]

/-- C10: the Tab binding is `_handle_tab()` then `_handle_down()`, and
BackTab is `_handle_tab()` then `_handle_up()`: on any state whose cursor
dereferences through the filtered view to the choice `c` stored at
position `r` of `choices` (with `c.index = r`, as the construction
invariant guarantees), Tab flips `c`'s enabled flag in place and advances
the cursor by `(i + 1) % N`, BackTab flips it and moves by `(i - 1) % N`
— so neither is a pure toggle. -/
theorem tab_flips_and_moves (st : FuzzyState) (r : Nat) (c : Choice)
    (h0 : 0 ≤ st.selectedChoiceIndex)
    (hr : st.filteredChoices[st.selectedChoiceIndex.toNat]? = some r)
    (hc : st.choices[r]? = some c)
    (hi : c.index = r) :
    tabBinding st =
      some { st with
             choices := st.choices.set r { c with enabled := !c.enabled }
             selectedChoiceIndex :=
               (st.selectedChoiceIndex + 1) % (st.choiceCount : Int) } ∧
    backTabBinding st =
      some { st with
             choices := st.choices.set r { c with enabled := !c.enabled }
             selectedChoiceIndex :=
               (st.selectedChoiceIndex - 1) % (st.choiceCount : Int) } := by
  have hsel : st.selection = some c := by
    unfold FuzzyState.selection pyGet
    rw [if_pos h0, hr]
    simpa using hc
  have hcount : st.choiceCount ≠ 0 := by
    have hlt : st.selectedChoiceIndex.toNat < st.filteredChoices.length := by
      by_contra hge
      rw [List.getElem?_eq_none (by omega)] at hr
      exact Option.noConfusion hr
    unfold FuzzyState.choiceCount
    omega
  have htab : handleTab st =
      some { st with
             choices := st.choices.set r { c with enabled := !c.enabled } } := by
    unfold handleTab
    rw [hsel]
    simp only [hi, hc]
  have hcc : ({ st with
      choices := st.choices.set r { c with enabled := !c.enabled } }
        : FuzzyState).choiceCount = st.choiceCount := rfl
  constructor
  · show (handleTab st).bind handleDown = _
    rw [htab, Option.some_bind]
    unfold handleDown
    rw [hcc, if_neg hcount]
  · show (handleTab st).bind handleUp = _
    rw [htab, Option.some_bind]
    unfold handleUp
    rw [hcc, if_neg hcount]

/-- Witness for C5: refiltering `stCursorTwo` with a matcher that drops
every candidate empties the view and the cursor resets from 2 to 0. -/
theorem text_changed_clamps_cursor_witness :
    0 ≤ stCursorTwo.selectedChoiceIndex ∧
    ((onTextChanged mEmpty stCursorTwo).selectedChoiceIndex =
      max 0 (min stCursorTwo.selectedChoiceIndex
        (((onTextChanged mEmpty stCursorTwo).choiceCount : Int) - 1)) ∧
    0 ≤ (onTextChanged mEmpty stCursorTwo).selectedChoiceIndex ∧
    (onTextChanged mEmpty stCursorTwo).selectedChoiceIndex <
      max 1 ((onTextChanged mEmpty stCursorTwo).choiceCount : Int)) :=
  ⟨by decide, text_changed_clamps_cursor mEmpty stCursorTwo (by decide)⟩

/-- Witness for C6: the only choice of `stOneChoice` ends disabled after
`toggle_all(True)` then `toggle_all(False)`. -/
theorem toggle_all_true_then_false_clears_witness :
    cOne ∈ (toggleAll (toggleAll stOneChoice (some true)) (some false)).choices ∧
    cOne.enabled = false :=
  ⟨by decide, toggle_all_true_then_false_clears stOneChoice cOne (by decide)⟩

/-- Witness for C7: committing `stMultiNoToggle` with an accepting
validator exits with the single value under the cursor. -/
theorem multiselect_enter_no_toggle_witness :
    stMultiNoToggle.multiselect = true ∧
    stMultiNoToggle.selectedChoices = [] ∧
    (fun _ : ResultVal => true) (ResultVal.rList []) = true ∧
    stMultiNoToggle.selection = some cOne ∧
    handleEnter (fun _ => true) stMultiNoToggle =
      some ⟨{ stMultiNoToggle with
              answered := true
              statusResult := some (ResultVal.rList [cOne.name]) },
            some (ResultVal.rList [cOne.value])⟩ :=
  ⟨rfl, by decide, rfl, by decide,
    multiselect_enter_no_toggle_returns_cursor_value (fun _ => true)
      stMultiNoToggle cOne rfl (by decide) rfl (by decide)⟩

/-- Witness for C8: committing `stMultiToggled` returns the two enabled
values in original order `["va", "vc"]` although the filtered view lists
them reversed. -/
theorem multiselect_enter_original_order_witness :
    stMultiToggled.wf ∧
    stMultiToggled.multiselect = true ∧
    stMultiToggled.selectedChoices ≠ [] ∧
    (fun _ : ResultVal => true)
      (ResultVal.rList (stMultiToggled.selectedChoices.map (fun c => c.value)))
      = true ∧
    (handleEnter (fun _ => true) stMultiToggled =
      some ⟨{ stMultiToggled with
              answered := true
              statusResult := some (ResultVal.rList
                (stMultiToggled.selectedChoices.map (fun c => c.name))) },
            some (ResultVal.rList
              (stMultiToggled.selectedChoices.map (fun c => c.value)))⟩ ∧
    (stMultiToggled.selectedChoices.map Choice.index).Pairwise (· < ·)) :=
  ⟨by decide, rfl, by decide, rfl,
    multiselect_enter_returns_enabled_values_in_original_order (fun _ => true)
      stMultiToggled (by decide) rfl (by decide) rfl⟩

/-- Witness for C9: a rejecting validator on `stMultiNoToggle` leaves
everything unchanged except `_invalid := true` and produces no result. -/
theorem enter_validation_failure_witness :
    stMultiNoToggle.resultValue = some (ResultVal.rList []) ∧
    (fun _ : ResultVal => false) (ResultVal.rList []) = false ∧
    handleEnter (fun _ => false) stMultiNoToggle =
      some ⟨{ stMultiNoToggle with invalid := true }, none⟩ :=
  ⟨by decide, rfl,
    enter_validation_failure_only_sets_invalid (fun _ => false)
      stMultiNoToggle (ResultVal.rList []) (by decide) rfl⟩

/-- Witness for C10: on `stTwoReversed` Tab flips the flag of the choice
stored at position 1 (the cursor's entry) and wraps the cursor by
`(0 + 1) % 2`; BackTab flips it and moves by `(0 - 1) % 2`. -/
theorem tab_flips_and_moves_witness :
    0 ≤ stTwoReversed.selectedChoiceIndex ∧
    stTwoReversed.filteredChoices[stTwoReversed.selectedChoiceIndex.toNat]?
      = some 1 ∧
    stTwoReversed.choices[1]? = some cB ∧
    cB.index = 1 ∧
    (tabBinding stTwoReversed =
      some { stTwoReversed with
             choices := stTwoReversed.choices.set 1
               { cB with enabled := !cB.enabled }
             selectedChoiceIndex :=
               (stTwoReversed.selectedChoiceIndex + 1)
                 % (stTwoReversed.choiceCount : Int) } ∧
    backTabBinding stTwoReversed =
      some { stTwoReversed with
             choices := stTwoReversed.choices.set 1
               { cB with enabled := !cB.enabled }
             selectedChoiceIndex :=
               (stTwoReversed.selectedChoiceIndex - 1)
                 % (stTwoReversed.choiceCount : Int) }) :=
  ⟨by decide, by decide, by decide, rfl,
    tab_flips_and_moves stTwoReversed 1 cB (by decide) (by decide)
      (by decide) rfl⟩

end InquirerPyFuzzy
